import Mathlib

/-!
Verification development for the Amazon Market Insights acquisition pipeline
(src/core/scraper.py, src/core/models.py, src/main.py).

The Python code is shallowly embedded as pure Lean functions.  External
effects are passed in as data:

* every fallible page operation (navigation, title fetch, markup fetch,
  selector query) is an input of type Except String _, where the error value
  is the exception message the Playwright call would raise;
* the SQLite store is a Store value (committed product rows plus an
  append-only list of scraping-session audit rows); timestamps and the
  timestamp-derived product_id labels are abstracted away, since no claim
  depends on them;
* a database exception inside the persist try block is modelled by an
  explicit fault oracle naming the point at which the exception is raised
  (a loop index, the audit-and-commit step after the loop, or the
  post-commit row-count read) together with its message; the sessionmaker
  in src/core/models.py is configured with autoflush disabled, so duplicate
  lookups inside the loop only see rows committed before the run started.

Prices parsed from page text (Python floats holding decimal dollar amounts)
are modelled as rationals.
-/

namespace MarketInsights

/-- Contiguous-subsequence test over character lists (an empty needle is
found everywhere, as for the Python in operator). -/
def infixB (needle : List Char) : List Char → Bool
  | [] => needle.isEmpty
  | c :: rest => needle.isPrefixOf (c :: rest) || infixB needle rest

/-- The characters of a string, lowercased. -/
def lowerData (s : String) : List Char := s.data.map Char.toLower

/-- Substring test: Python needle in hay. -/
def containsSub (hay needle : String) : Bool := infixB needle.data hay.data

/-- Case-insensitive substring test: Python needle.lower() in hay.lower(). -/
def containsCI (hay needle : String) : Bool :=
  infixB (lowerData needle) (lowerData hay)

/-- Substring test against a lowercased haystack: Python
needle in hay.lower(), for needles that are already lowercase. -/
def containsInLower (hay needle : String) : Bool :=
  infixB needle.data (lowerData hay)

/-! ## Search-results extraction (scraper.py lines 386-459) -/

/-- One price-selector lookup inside an item element:
`none` = the selector matched no element; `some none` = an element matched
but its text had no currency-like numeric substring; `some (some q)` = the
regex parsed the value q. -/
abbrev PriceCand := Option (Option ℚ)

/-- One item element of the results page, as seen by the per-field candidate
chains: the href of the first anchor with a truthy href attribute
(scraper.py line 392), the stripped candidate text produced by each of the
seven name selectors (lines 398-416), and the outcome of each of the seven
price selectors (lines 433-451). -/
structure ItemElem where
  href : Option String
  nameCands : List (Option String)
  priceCands : List PriceCand
deriving DecidableEq

/-- The promotional-text denylist of scraper.py lines 419-423. -/
def invalidTexts : List String :=
  ["sponsored", "best seller", "amazon\x27s choice", "overall pick",
   "limited time deal", "#1 best seller", "climate pledge friendly",
   "add to cart", "save", "coupon", "free shipping"]

/-- The acceptance test of scraper.py lines 425-428: nonempty, not the
placeholder, longer than 10 characters, and free of promotional phrases. -/
def acceptName (c : String) : Bool :=
  c ≠ "" && c ≠ "N/A" && decide (10 < c.length) &&
    !(invalidTexts.any (fun t => containsInLower c t))

/-- First accepted candidate of the name chain (lines 408-430); a rejected
candidate is skipped, not kept. -/
def nameChainOpt : List (Option String) → Option String
  | [] => none
  | none :: rest => nameChainOpt rest
  | some c :: rest => if acceptName c then some c else nameChainOpt rest

/-- First parsed value of the price chain (lines 443-451); the loop breaks
on the first successful regex match, even when the parsed value is 0. -/
def priceChainOpt : List PriceCand → Option ℚ
  | [] => none
  | none :: rest => priceChainOpt rest
  | some none :: rest => priceChainOpt rest
  | some (some q) :: _ => some q

/-- URL resolution of scraper.py lines 392-395: site-relative hrefs are
prefixed with the host, an absent or empty href leaves the default "". -/
def resolveUrl : Option String → String
  | none => ""
  | some h =>
      if h = "" then ""
      else if "/".data.isPrefixOf h.data then "https://www.amazon.com" ++ h
      else h

/-- A record extracted from the results page (name, price, url keys of the
scraped_data dicts, line 455). -/
structure RawRecord where
  name : String
  price : ℚ
  url : String
deriving DecidableEq

/-- Retention test of scraper.py line 454 applied to one item element:
keep the record only when the name chain accepted a candidate, the first
parsed price is positive, and a product url resolved. -/
def extractRecord (it : ItemElem) : Option RawRecord :=
  let name := (nameChainOpt it.nameCands).getD "N/A"
  let price := (priceChainOpt it.priceCands).getD 0
  let url := resolveUrl it.href
  if name ≠ "N/A" ∧ name ≠ "" ∧ 0 < price ∧ url ≠ "" then
    some ⟨name, price, url⟩
  else none

/-- First non-empty selector result (lines 372-376: the first product
selector that yields at least one element wins). -/
def firstNonEmpty : List (List ItemElem) → List ItemElem
  | [] => []
  | l :: rest => if l.isEmpty then firstNonEmpty rest else l

/-! ## Page classification (scraper.py scrape_search_page, lines 180-466) -/

/-- The block and error indicator substrings of scraper.py lines 263-269. -/
def errorIndicators : List String :=
  ["Sorry! Something went wrong!", "503 Service Unavailable",
   "500 Internal Server Error", "Robot Check", "captcha"]

/-- Case-insensitive indicator scan of lines 272-273: the first indicator
found in the lowered page title or lowered page markup. -/
def findIndicator (title content : String) : Option String :=
  errorIndicators.find? fun ind =>
    containsCI title ind || containsCI content ind

/-- The exception-message marker tested at lines 341 and 353. -/
def closedMsg : String := "Target page, context or browser has been closed"

def noPageReason : String := "브라우저가 시작되지 않았습니다."

def interactErrReason (e : String) : String :=
  "아마존 페이지와 상호작용하는 중 오류가 발생했습니다: " ++ e

def blockReason (ind : String) : String :=
  "Amazon이 에러 페이지를 반환했습니다: " ++ ind ++
    ". 키워드를 변경하거나 나중에 다시 시도해주세요."

def closedReason : String :=
  "브라우저가 Amazon에 의해 종료되었습니다. 너무 빠른 요청으로 인한 차단으로 보입니다."

def noContainerReason : String :=
  "상품 목록 영역을 찾을 수 없습니다. (error_page.html 저장됨)"

def noItemsReason : String :=
  "상품 목록 영역은 찾았으나, 내부에 개별 상품 요소가 존재하지 않습니다. (debug_container.html 저장됨)"

def noValidReason (n : Nat) : String :=
  toString n ++
    "개의 상품 영역을 분석했으나, 유효한 이름과 가격 정보를 가진 상품을 하나도 찾지 못했습니다."

/-- The observable behaviour of one scrape_search_page call.  Fields model
the page operations the method performs, in program order:

* navAttempts: outcome of each of the three direct-URL goto attempts
  (lines 199-251); none = reached, some msg = the attempt raised msg;
* navFallback: outcome of the homepage-search fallback executed inside the
  handler of the final failed attempt (lines 219-250); its exception is the
  only one that can reach the enclosing handler at line 253;
* titleRes / contentRes: page.title() at line 259 and page.content() at
  line 271 — both run outside any try block, so their exceptions
  propagate out of the method;
* containerQ: per-selector results of the container query loop at lines
  330-345 (ok true = element found, ok false = null, error = exception);
* dumpRes: page.content() inside the diagnostic-dump branch, line 349;
* innerHtmlRes: container.inner_html() at line 358, again unguarded;
* itemsBySel: the elements each product selector finds in the container
  markup (lines 363-376).

The polling loop at lines 291-309 only prints progress (every exception in
it is swallowed by a bare except), so it has no observable effect and is
not modelled. -/
structure PageModel where
  pageStarted : Bool
  navAttempts : List (Option String)
  navFallback : Except String Unit
  titleRes : Except String String
  contentRes : Except String String
  containerQ : List (Except String Bool)
  dumpRes : Except String Unit
  innerHtmlRes : Except String Unit
  itemsBySel : List (List ItemElem)

/-- Navigation phase outcome: none = a page was reached, some reason = the
method returned early with that error reason.  A page is reached when any
of the three direct attempts succeeds, or all fail and the fallback path
succeeds; a fallback exception is caught at line 253 and turned into the
interaction-error reason. -/
def navigatePhase (attempts : List (Option String)) (fb : Except String Unit) :
    Option String :=
  if (attempts.take 3).any Option.isNone then none
  else
    match fb with
    | .ok _ => none
    | .error e => some (interactErrReason e)

/-- Result of the container-selector loop of lines 330-345. -/
inductive ContainerRes where
  | found
  | notFound
  | closedErr
deriving DecidableEq

/-- Container query loop: the first selector returning an element wins; a
query exception whose message carries the session-closed marker aborts with
the closed-browser error, any other query exception is skipped. -/
def containerLoop : List (Except String Bool) → ContainerRes
  | [] => .notFound
  | .ok true :: _ => .found
  | .ok false :: rest => containerLoop rest
  | .error e :: rest =>
      if containsSub e closedMsg then .closedErr else containerLoop rest

/-- Reason returned by the dump branch of lines 347-355: a session-closed
exception while fetching the markup for the diagnostic dump yields the
closed-browser error, anything else falls through to the no-container
error. -/
def dumpBranch : Except String Unit → String
  | .error e => if containsSub e closedMsg then closedReason else noContainerReason
  | .ok _ => noContainerReason

/-- The value scrape_search_page hands back when it returns normally:
either the error dict (status error with a reason) or the success dict with
the extracted records. -/
inductive ScrapeOutcome where
  | err (reason : String)
  | ok (data : List RawRecord)
deriving DecidableEq

/-- scrape_search_page.  The outer Except layer is exception propagation:
a .error value is an exception escaping the method (only the unguarded
page reads at lines 259, 271 and 358 can produce one); every other failure
is caught inside the method and returned as ScrapeOutcome.err. -/
def scrapeSearchPage (pg : PageModel) : Except String ScrapeOutcome :=
  if pg.pageStarted = false then .ok (.err noPageReason)
  else
    match navigatePhase pg.navAttempts pg.navFallback with
    | some reason => .ok (.err reason)
    | none =>
      match pg.titleRes with
      | .error e => .error e
      | .ok title =>
        match pg.contentRes with
        | .error e => .error e
        | .ok content =>
          match findIndicator title content with
          | some ind => .ok (.err (blockReason ind))
          | none =>
            match containerLoop pg.containerQ with
            | .closedErr => .ok (.err closedReason)
            | .notFound => .ok (.err (dumpBranch pg.dumpRes))
            | .found =>
              match pg.innerHtmlRes with
              | .error e => .error e
              | .ok _ =>
                let products := firstNonEmpty pg.itemsBySel
                if products.isEmpty then .ok (.err noItemsReason)
                else
                  let data := products.filterMap extractRecord
                  if data.isEmpty then .ok (.err (noValidReason products.length))
                  else .ok (.ok data)

/-! ## Detail-page enrichment (scraper.py scrape_product_detail, lines 468-651) -/

/-- The DOM of one product detail page, as seen by the per-attribute
candidate chains.  Option layers as in ItemElem; for rating, review count
and price the inner Option is the success of the numeric parse (float, int
over extracted digits, int of float respectively). -/
structure DetailPage where
  nameC : List (Option String)
  brandC : List (Option String)
  sellerC : List (Option String)
  primeC : List Bool
  ratingC : List (Option (Option ℚ))
  reviewC : List (Option (Option Nat))
  priceC : List (Option (Option ℚ))
deriving DecidableEq

/-- String-attribute chain of lines 509-542 (brand, seller): the current
value is overwritten by every matched element and the loop stops at the
first value that is nonempty and not the placeholder. -/
def chainKeepLast : List (Option String) → String → String
  | [], cur => cur
  | none :: rest, cur => chainKeepLast rest cur
  | some t :: rest, cur =>
      if t ≠ "" && t ≠ "N/A" then t else chainKeepLast rest t

/-- Detail-name chain of lines 489-507: same discipline, except that the
candidate produced by the fifth selector (the title element, index 4) is
first cut at the site suffix. -/
def detailNameChain : Nat → List (Option String) → String → String
  | _, [], cur => cur
  | i, none :: rest, cur => detailNameChain (i + 1) rest cur
  | i, some t :: rest, cur =>
      let v := if i = 4 then ((t.splitOn " - 쿠팡!").headD "") else t
      if v ≠ "" && v ≠ "N/A" then v else detailNameChain (i + 1) rest v

/-- Rating chain of lines 561-579: the loop breaks at the first successful
float parse, whatever its value. -/
def ratingChain : List (Option (Option ℚ)) → ℚ
  | [] => 0
  | none :: rest => ratingChain rest
  | some none :: rest => ratingChain rest
  | some (some q) :: _ => q

/-- Review-count chain of lines 582-601: a successful parse overwrites the
current value but the loop only breaks when the value is positive. -/
def reviewChain : List (Option (Option Nat)) → Nat → Nat
  | [], cur => cur
  | none :: rest, cur => reviewChain rest cur
  | some none :: rest, cur => reviewChain rest cur
  | some (some v) :: rest, cur => if 0 < v then v else reviewChain rest v

/-- Detail-price chain of lines 604-624: a successful int(float(text))
parse overwrites the current value and the loop breaks only when the value
is positive. -/
def detailPriceChain : List (Option (Option ℚ)) → ℚ → ℚ
  | [], cur => cur
  | none :: rest, cur => detailPriceChain rest cur
  | some none :: rest, cur => detailPriceChain rest cur
  | some (some v) :: rest, _ => if 0 < v then v else detailPriceChain rest v

/-- The dict scrape_product_detail returns (lines 626-635, and the
error-default dict of lines 642-651). -/
structure DetailInfo where
  detail_name : String
  brand : String
  seller : String
  is_prime : Bool
  rating : ℚ
  review_count : Nat
  price : ℚ
  url : String
deriving DecidableEq

/-- scrape_product_detail: the fetch argument is the outcome of the
navigation plus markup read for the given url.  Every exception is caught
(line 640) and replaced by the default dict; the input url is echoed into
the result in both branches. -/
def scrapeProductDetail (url : String) (fetch : Except String DetailPage) :
    DetailInfo :=
  match fetch with
  | .error _ =>
      { detail_name := "ERROR", brand := "N/A", seller := "N/A",
        is_prime := false, rating := 0, review_count := 0, price := 0,
        url := url }
  | .ok dp =>
      { detail_name := detailNameChain 0 dp.nameC "N/A"
        brand := chainKeepLast dp.brandC "N/A"
        seller := chainKeepLast dp.sellerC "N/A"
        is_prime := dp.primeC.any id
        rating := ratingChain dp.ratingC
        review_count := reviewChain dp.reviewC 0
        price := detailPriceChain dp.priceC 0
        url := url }

/-- A products_data entry as save_to_database receives it: a dict whose
keys may be absent (the .get default semantics of lines 748-767).  The
dicts produced by the pipeline are the union of a search record and a
detail dict. -/
structure ProductData where
  name : Option String
  detail_name : Option String
  price : Option ℚ
  rating : Option ℚ
  review_count : Option Nat
  brand : Option String
  seller : Option String
  is_prime : Option Bool
  url : Option String
deriving DecidableEq

/-- The merge at line 857: detail keys overwrite search keys, so the
price and url of the merged dict come from the detail dict. -/
def mergeProduct (r : RawRecord) (d : DetailInfo) : ProductData :=
  { name := some r.name
    detail_name := some d.detail_name
    price := some d.price
    rating := some d.rating
    review_count := some d.review_count
    brand := some d.brand
    seller := some d.seller
    is_prime := some d.is_prime
    url := some d.url }

/-! ## Persistence (scraper.py save_to_database, lines 714-830; models.py) -/

/-- A committed products row (core/models.py Product).  The generated id
and the timestamp columns are abstracted away; the timestamp-derived
product_id label is likewise dropped, since nothing reads it. -/
structure Product where
  product_title : String
  product_category : String
  discounted_price : ℚ
  product_rating : ℚ
  total_reviews : Nat
  purchased_last_month : Nat
  brand : Option String
  seller : Option String
  is_prime : Bool
  product_url : String
deriving DecidableEq

/-- A scraping_sessions audit row (core/models.py ScrapingSession), with
the two timestamp columns abstracted away. -/
structure ScrapingSession where
  keyword : String
  products_found : Nat
  products_saved : Nat
  session_status : String
  error_message : Option String
deriving DecidableEq

/-- The SQLite store: committed product rows and the append-only audit
log. -/
structure Store where
  products : List Product
  sessionsLog : List ScrapingSession
deriving DecidableEq

/-- The dict save_to_database returns.  The failure dicts carry no count
keys, hence the Option fields. -/
structure RunResult where
  success : Bool
  message : String
  products_added : Option Nat
  products_skipped : Option Nat
  total_products_in_db : Option Nat
deriving DecidableEq

/-- Row construction of scraper.py lines 757-770 (with the .get default
for each possibly missing key, and the N/A-to-null translation for brand
and seller). -/
def mkProduct (kw : String) (p : ProductData) : Product :=
  { product_title := (p.name.or p.detail_name).getD "N/A"
    product_category := kw
    discounted_price := p.price.getD 0
    product_rating := p.rating.getD 0
    total_reviews := p.review_count.getD 0
    purchased_last_month := max 1 (p.review_count.getD 0 / 10)
    brand := match p.brand with
             | some b => if b = "N/A" then none else some b
             | none => none
    seller := match p.seller with
              | some s => if s = "N/A" then none else some s
              | none => none
    is_prime := p.is_prime.getD false
    product_url := p.url.getD "" }

/-- Pending session state inside the persist loop: counters plus the rows
added to the ORM session but not yet committed. -/
structure LoopSt where
  added : Nat
  skipped : Nat
  pending : List Product
deriving DecidableEq

/-- A database fault injected into the run: the exception message together
with the point at which the exception is raised, counted in items
processed.  An index below the item count aborts the loop at that item;
the item count itself hits the audit-construction and commit step after
the loop (scraper.py lines 777-789); the item count plus one hits the
post-commit row-count read of line 795, which runs after the transaction
has already committed. -/
abbrev DbFault := Option (Nat × String)

/-- Does the fault fire at loop index i? -/
def faultHit : DbFault → Nat → Option String
  | none, _ => none
  | some (j, m), i => if j = i then some m else none

/-- The persist loop of scraper.py lines 743-789.  Duplicate lookup is
against the committed rows only (autoflush is disabled in models.py line
92, so pending rows of this run are invisible to the query); an item with
a nonempty url already present is counted skipped, otherwise a row is
added to the session.  A fault aborts with the pending state, which the
exception handler then rolls back. -/
def persistLoop (sp : List Product) (kw : String) (fault : DbFault) :
    List ProductData → Nat → LoopSt → Except (String × LoopSt) LoopSt
  | [], i, st =>
      match faultHit fault i with
      | some m => .error (m, st)
      | none => .ok st
  | p :: rest, i, st =>
      match faultHit fault i with
      | some m => .error (m, st)
      | none =>
          let url := (p.url.getD "")
          if url ≠ "" && sp.any (fun q => q.product_url == url) then
            persistLoop sp kw fault rest (i + 1)
              { st with skipped := st.skipped + 1 }
          else
            persistLoop sp kw fault rest (i + 1)
              { st with added := st.added + 1,
                        pending := st.pending ++ [mkProduct kw p] }

def dbFailMessage (e : String) : String :=
  "데이터베이스 저장 중 오류 발생: " ++ e

/-- save_to_database (scraper.py lines 714-830).  An empty input returns
the no-data failure before any session is opened (lines 726-728).  On a
clean loop the audit row is added and everything commits together (lines
776-789); the result dict then reads the committed row count back
(session.query(Product).count(), line 795), still inside the outer try: a
fault there (oracle index items.length + 1) arrives after the commit, so
the handler at lines 806-827 rolls back nothing, the committed rows and
the committed success audit stay, and a second, failed audit row is
committed best-effort.  On an exception before the commit the rollback
discards every pending row of this run and the failed audit row is then
written on a fresh best-effort commit.  In both handler paths, if the
secondary audit write fails too (auditFails), it is swallowed (lines
824-825).  create_tables and get_session (lines 733-736) sit before the
try block: an exception there would propagate with nothing written; no
claim depends on that path and the oracle does not model it. -/
def saveToDatabase (store : Store) (products_data : List ProductData)
    (kw : String) (fault : DbFault) (auditFails : Bool) : Store × RunResult :=
  if products_data.isEmpty then
    (store, ⟨false, "데이터 없음", none, none, none⟩)
  else
    match persistLoop store.products kw fault products_data 0 ⟨0, 0, []⟩ with
    | .ok st =>
        let audit : ScrapingSession :=
          { keyword := kw
            products_found := products_data.length
            products_saved := st.added
            session_status := if 0 < st.added then "completed" else "partial"
            error_message :=
              if 0 < st.skipped then
                some (toString st.skipped ++ "개 중복 상품 스킵됨")
              else none }
        match faultHit fault (products_data.length + 1) with
        | some e =>
            let store' :=
              if auditFails then
                ⟨store.products ++ st.pending, store.sessionsLog ++ [audit]⟩
              else
                ⟨store.products ++ st.pending,
                 (store.sessionsLog ++ [audit]) ++
                   [{ keyword := kw
                      products_found := products_data.length
                      products_saved := 0
                      session_status := "failed"
                      error_message := some e }]⟩
            (store', ⟨false, dbFailMessage e, none, none, none⟩)
        | none =>
            (⟨store.products ++ st.pending, store.sessionsLog ++ [audit]⟩,
             ⟨true,
              "성공적으로 " ++ toString st.added ++ "개 상품을 데이터베이스에 저장했습니다.",
              some st.added, some st.skipped,
              some (store.products.length + st.pending.length)⟩)
    | .error (e, _) =>
        let store' :=
          if auditFails then store
          else
            ⟨store.products,
             store.sessionsLog ++
               [{ keyword := kw
                  products_found := products_data.length
                  products_saved := 0
                  session_status := "failed"
                  error_message := some e }]⟩
        (store', ⟨false, dbFailMessage e, none, none, none⟩)

/-! ## Pipeline (scraper.py scrape_and_save_to_db, lines 832-869) -/

/-- The enrichment step of lines 850-861: only the first five records are
visited; each merge pairs the search record with its detail dict. -/
def enrichBatch (data : List RawRecord)
    (fetch : String → Except String DetailPage) : List ProductData :=
  (data.take 5).map fun r => mergeProduct r (scrapeProductDetail r.url (fetch r.url))

/-- scrape_and_save_to_db.  The Except layer of the scrape propagates
unchanged (nothing catches it here); a scrape error dict becomes the
failure result of line 843; otherwise the extracted list is cut to
max_products, the first five records are enriched, and only the enriched
list is handed to saveToDatabase. -/
def scrapeAndSaveToDb (store : Store) (pg : PageModel) (kw : String)
    (maxProducts : Nat) (fetch : String → Except String DetailPage)
    (fault : DbFault) (auditFails : Bool) : Store × Except String RunResult :=
  match scrapeSearchPage pg with
  | .error e => (store, .error e)
  | .ok (.err reason) => (store, .ok ⟨false, reason, none, none, none⟩)
  | .ok (.ok data) =>
      let basics := data.take maxProducts
      let detailed := enrichBatch basics fetch
      let out := saveToDatabase store detailed kw fault auditFails
      (out.1, .ok out.2)

/-! ## Concurrency gate (main.py lines 63-64 and 86-190)

Two concurrent create_report requests interleave cooperatively on the
asyncio event loop.  Each request executes, in program order:

1. scraper.start_browser()            (line 123 — before the lock)
2. async with scraping_lock: enter    (line 142)
3. scraper.scrape_and_save_to_db(...) (line 144 — scrape plus persist)
4. async with scraping_lock: exit     (line 145)
5. scraper.close_browser()            (line 188 — the finally block)

Each request owns its own AmazonScraper and browser (lines 119 and 123).
The model is a two-task transition system: a scheduler word picks which
task performs its next atomic action; acquiring the lock is only enabled
while no task holds it. -/

/-- A results-page item element whose three field chains all resolve. -/
def itemFx (j : Nat) : ItemElem :=
  { href := some ("/dp/C4PROD" ++ toString j)
    nameCands := [some ("Wireless Mouse Variant Number " ++ toString j)]
    priceCands := [some (some ((10 + j : Nat) : ℚ))] }

/-- A clean results page carrying the given item elements: navigation
succeeds on the first attempt, no indicator in title or markup, the first
container selector matches. -/
def pageWith (items : List ItemElem) : PageModel :=
  { pageStarted := true
    navAttempts := [none]
    navFallback := .ok ()
    titleRes := .ok "Amazon.com : wireless mouse"
    contentRes := .ok "<html>wireless mouse results</html>"
    containerQ := [.ok true]
    dumpRes := .ok ()
    innerHtmlRes := .ok ()
    itemsBySel := [items] }

/-- A page that reaches navigation but whose title is the Robot Check
interstitial. -/
def pageRobot : PageModel :=
  { pageWith [itemFx 0] with titleRes := .ok "Robot Check" }

/-- The message of a navigation exception raised after the browser was
closed under the in-flight call. -/
def closedBoom : String :=
  "Page.goto: Target page, context or browser has been closed"

/-- A page on which every direct navigation attempt and the fallback
navigation raise the session-closed exception. -/
def pageClosed : PageModel :=
  { pageWith [itemFx 0] with
      navAttempts := [some closedBoom, some closedBoom, some closedBoom]
      navFallback := .error closedBoom }

/-- A detail fetch that always times out. -/
def fetchFail : String → Except String DetailPage := fun _ => .error "Timeout 15000ms exceeded."

def emptyStore : Store := ⟨[], []⟩

/-- A page reached over navigation whose title read then raises. -/
def pageTitleRaise : PageModel :=
  { pageWith [itemFx 0] with titleRes := .error "boom" }

/-- A search record with a known price. -/
def rawFx : RawRecord :=
  ⟨"Ergonomic Wireless Mouse Pro", 25, "https://www.amazon.com/dp/X1"⟩

/-- The dict the pipeline builds for rawFx when its detail visit fails. -/
def pdFx : ProductData :=
  mergeProduct rawFx (scrapeProductDetail rawFx.url (fetchFail rawFx.url))

/-- A clean page with three valid item elements. -/
def page3 : PageModel := pageWith ((List.range 3).map itemFx)

/-- The records page3 extracts. -/
def d3 : List RawRecord :=
  [⟨"Wireless Mouse Variant Number 0", ((10 : ℕ) : ℚ), "https://www.amazon.com/dp/C4PROD0"⟩,
   ⟨"Wireless Mouse Variant Number 1", ((11 : ℕ) : ℚ), "https://www.amazon.com/dp/C4PROD1"⟩,
   ⟨"Wireless Mouse Variant Number 2", ((12 : ℕ) : ℚ), "https://www.amazon.com/dp/C4PROD2"⟩]

/-- A clean page with twelve valid item elements. -/
def page12 : PageModel := pageWith ((List.range 12).map itemFx)

/-- The success message of scraper.py line 796. -/
def successMessage (added : Nat) : String :=
  "성공적으로 " ++ toString added ++ "개 상품을 데이터베이스에 저장했습니다."

/-- The duplicate test of scraper.py lines 748-751: the item has a nonempty
url and a committed row already carries it. -/
def dupB (sp : List Product) (p : ProductData) : Bool :=
  p.url.getD "" ≠ "" && sp.any (fun q => q.product_url == p.url.getD "")

/-! ## Helper lemmas -/

theorem nameChainOpt_accept {l : List (Option String)} {c : String}
    (h : nameChainOpt l = some c) : acceptName c = true := by
  induction l with
  | nil => simp [nameChainOpt] at h
  | cons hd tl ih =>
    cases hd with
    | none => exact ih h
    | some t =>
      by_cases ha : acceptName t = true
      · simp [nameChainOpt, ha] at h
        subst h; exact ha
      · simp only [nameChainOpt] at h
        rw [if_neg ha] at h
        exact ih h

theorem acceptName_ne {c : String} (h : acceptName c = true) :
    c ≠ "N/A" ∧ c ≠ "" := by
  simp only [acceptName, Bool.and_eq_true, decide_eq_true_eq] at h
  exact ⟨h.1.1.2, h.1.1.1⟩

theorem extractRecord_url {it : ItemElem} {r : RawRecord}
    (h : extractRecord it = some r) : r.url ≠ "" := by
  simp only [extractRecord] at h
  split at h
  · rename_i hc
    cases h
    exact hc.2.2.2
  · cases h

theorem extractRecord_mk {it : ItemElem} {r : RawRecord}
    (h : extractRecord it = some r) :
    r = ⟨(nameChainOpt it.nameCands).getD "N/A",
         (priceChainOpt it.priceCands).getD 0, resolveUrl it.href⟩ := by
  simp only [extractRecord] at h
  split at h
  · cases h; rfl
  · cases h

theorem scrapeSearchPage_ok {pg : PageModel} {d : List RawRecord}
    (h : scrapeSearchPage pg = .ok (.ok d)) :
    d = (firstNonEmpty pg.itemsBySel).filterMap extractRecord := by
  simp only [scrapeSearchPage] at h
  split at h
  · cases h
  · split at h
    · cases h
    · split at h
      · cases h
      · split at h
        · cases h
        · split at h
          · cases h
          · split at h
            · cases h
            · cases h
            · split at h
              · cases h
              · split at h
                · cases h
                · split at h
                  · cases h
                  · cases h; rfl

theorem scrapeSearchPage_ok_urls {pg : PageModel} {d : List RawRecord}
    (h : scrapeSearchPage pg = .ok (.ok d)) : ∀ r ∈ d, r.url ≠ "" := by
  intro r hr
  rw [scrapeSearchPage_ok h] at hr
  rcases List.mem_filterMap.mp hr with ⟨it, _, hit⟩
  exact extractRecord_url hit

theorem persistLoop_none (sp : List Product) (kw : String) :
    ∀ (items : List ProductData) (i : Nat) (st : LoopSt),
    persistLoop sp kw none items i st =
      .ok ⟨st.added + (items.filter fun p => !dupB sp p).length,
           st.skipped + (items.filter fun p => dupB sp p).length,
           st.pending ++ (items.filter fun p => !dupB sp p).map (mkProduct kw)⟩ := by
  intro items
  induction items with
  | nil => intro i st; simp [persistLoop, faultHit]
  | cons p rest ih =>
    intro i st
    by_cases hd : dupB sp p = true
    · have hd' : (p.url.getD "" ≠ "" && sp.any fun q => q.product_url == p.url.getD "") = true := hd
      simp only [persistLoop, faultHit, hd', if_true]
      rw [ih]
      simp [List.filter_cons, hd]
      omega
    · have hd' : (p.url.getD "" ≠ "" && sp.any fun q => q.product_url == p.url.getD "") = false :=
        Bool.not_eq_true _ ▸ hd
      simp only [persistLoop, faultHit, hd', Bool.false_eq_true, if_false]
      rw [ih]
      simp [List.filter_cons, hd]
      omega

theorem persistLoop_big_fault (sp : List Product) (kw msg : String) (j : Nat) :
    ∀ (items : List ProductData) (i : Nat) (st : LoopSt), i + items.length < j →
    persistLoop sp kw (some (j, msg)) items i st
      = persistLoop sp kw none items i st := by
  intro items
  induction items with
  | nil =>
    intro i st h
    have hij : j ≠ i := by simp at h; omega
    simp [persistLoop, faultHit, hij]
  | cons p rest ih =>
    intro i st h
    have hij : j ≠ i := by simp at h; omega
    have hrec : (i + 1) + rest.length < j := by simp at h; omega
    simp only [persistLoop, faultHit, hij, if_false]
    split
    · exact ih (i + 1) _ hrec
    · exact ih (i + 1) _ hrec

theorem persistLoop_fault (sp : List Product) (kw msg : String) (j : Nat) :
    ∀ (items : List ProductData) (i : Nat) (st : LoopSt), i ≤ j → j < i + items.length →
    ∃ st', persistLoop sp kw (some (j, msg)) items i st = .error (msg, st') := by
  intro items
  induction items with
  | nil => intro i st h1 h2; simp at h2; omega
  | cons p rest ih =>
    intro i st h1 h2
    by_cases hij : j = i
    · exact ⟨st, by simp [persistLoop, faultHit, hij]⟩
    · have hlt : i + 1 ≤ j := by omega
      have hgt : j < (i + 1) + rest.length := by simp at h2; omega
      simp only [persistLoop, faultHit, hij, if_false]
      split
      · exact ih (i + 1) _ hlt hgt
      · exact ih (i + 1) _ hlt hgt

theorem persistLoop_ok_pending (sp : List Product) (kw : String) (fault : DbFault) :
    ∀ (items : List ProductData) (i : Nat) (st st' : LoopSt),
    persistLoop sp kw fault items i st = .ok st' →
    st'.pending.length ≤ st.pending.length + items.length := by
  intro items
  induction items with
  | nil =>
    intro i st st' h
    simp only [persistLoop] at h
    split at h
    · cases h
    · cases h; simp
  | cons p rest ih =>
    intro i st st' h
    simp only [persistLoop] at h
    split at h
    · cases h
    · split at h
      · have := ih (i + 1) _ _ h
        simp at this ⊢
        omega
      · have := ih (i + 1) _ _ h
        simp at this ⊢
        omega

theorem save_success (st : Store) (items : List ProductData) (kw : String)
    (aF : Bool) (hne : items ≠ []) :
    saveToDatabase st items kw none aF =
      (⟨st.products ++ (items.filter fun p => !dupB st.products p).map (mkProduct kw),
        st.sessionsLog ++
          [⟨kw, items.length,
            (items.filter fun p => !dupB st.products p).length,
            if 0 < (items.filter fun p => !dupB st.products p).length then "completed"
              else "partial",
            if 0 < (items.filter fun p => dupB st.products p).length then
              some (toString (items.filter fun p => dupB st.products p).length ++
                "개 중복 상품 스킵됨")
            else none⟩]⟩,
       ⟨true, successMessage (items.filter fun p => !dupB st.products p).length,
        some (items.filter fun p => !dupB st.products p).length,
        some (items.filter fun p => dupB st.products p).length,
        some (st.products.length +
          (items.filter fun p => !dupB st.products p).length)⟩) := by
  have hne' : items.isEmpty = false := by
    cases items with
    | nil => exact absurd rfl hne
    | cons a l => rfl
  simp only [saveToDatabase, hne', Bool.false_eq_true, if_false]
  rw [persistLoop_none]
  simp [successMessage, faultHit, List.length_map]

theorem save_fault (st : Store) (items : List ProductData) (kw msg : String)
    (j : Nat) (aF : Bool) (hj : j < items.length) :
    saveToDatabase st items kw (some (j, msg)) aF =
      (if aF then st
       else ⟨st.products,
             st.sessionsLog ++ [⟨kw, items.length, 0, "failed", some msg⟩]⟩,
       ⟨false, dbFailMessage msg, none, none, none⟩) := by
  have hne' : items.isEmpty = false := by
    cases items with
    | nil => simp at hj
    | cons a l => rfl
  obtain ⟨st', hst'⟩ :=
    persistLoop_fault st.products kw msg j items 0 ⟨0, 0, []⟩ (Nat.zero_le j)
      (by omega)
  simp only [saveToDatabase, hne', Bool.false_eq_true, if_false, hst']

theorem save_count_fault (st : Store) (items : List ProductData)
    (kw msg : String) (aF : Bool) (hne : items ≠ []) :
    saveToDatabase st items kw (some (items.length + 1, msg)) aF
      = (⟨st.products ++
            (items.filter fun p => !dupB st.products p).map (mkProduct kw),
          (st.sessionsLog ++
            [⟨kw, items.length,
              (items.filter fun p => !dupB st.products p).length,
              if 0 < (items.filter fun p => !dupB st.products p).length then
                "completed" else "partial",
              if 0 < (items.filter fun p => dupB st.products p).length then
                some (toString (items.filter fun p => dupB st.products p).length ++
                  "개 중복 상품 스킵됨")
              else none⟩]) ++
            (if aF then [] else [⟨kw, items.length, 0, "failed", some msg⟩])⟩,
         ⟨false, dbFailMessage msg, none, none, none⟩) := by
  have hne' : items.isEmpty = false := by
    cases items with
    | nil => exact absurd rfl hne
    | cons a l => rfl
  simp only [saveToDatabase, hne', Bool.false_eq_true, if_false]
  rw [persistLoop_big_fault st.products kw msg (items.length + 1) items 0 ⟨0, 0, []⟩
    (by omega), persistLoop_none]
  cases aF <;> simp [faultHit, List.length_map]

theorem save_log_le (st : Store) (items : List ProductData) (kw : String)
    (fault : DbFault) (aF : Bool) :
    (saveToDatabase st items kw fault aF).1.sessionsLog.length
      ≤ st.sessionsLog.length + 2 := by
  simp only [saveToDatabase]
  split
  · simp
  · split
    · split
      · split <;> simp
      · simp
    · split <;> simp

theorem save_products_le (st : Store) (items : List ProductData) (kw : String)
    (fault : DbFault) (aF : Bool) :
    (saveToDatabase st items kw fault aF).1.products.length
      ≤ st.products.length + items.length := by
  simp only [saveToDatabase]
  split
  · exact Nat.le_add_right _ _
  · split
    · rename_i st' h
      have hp := persistLoop_ok_pending st.products kw fault items 0 ⟨0, 0, []⟩ st' h
      split
      · split <;> (simp at hp ⊢; omega)
      · simp at hp ⊢
        omega
    · split <;> exact Nat.le_add_right _ _

theorem scrapeProductDetail_url (u : String) (f : Except String DetailPage) :
    (scrapeProductDetail u f).url = u := by
  cases f <;> rfl

theorem enrichBatch_url {data : List RawRecord}
    {fetch : String → Except String DetailPage} :
    ∀ p ∈ enrichBatch data fetch, ∃ r ∈ data, p.url = some r.url := by
  intro p hp
  rcases List.mem_map.mp hp with ⟨r, hr, rfl⟩
  exact ⟨r, List.mem_of_mem_take hr, by rw [mergeProduct, scrapeProductDetail_url]⟩

theorem save_twice (st : Store) (items : List ProductData) (kw : String)
    (hne : items ≠ []) (hurls : ∀ p ∈ items, p.url.getD "" ≠ "") :
    saveToDatabase (saveToDatabase st items kw none false).1 items kw none false
      = (⟨(saveToDatabase st items kw none false).1.products,
          (saveToDatabase st items kw none false).1.sessionsLog ++
            [⟨kw, items.length, 0, "partial",
              some (toString items.length ++ "개 중복 상품 스킵됨")⟩]⟩,
         ⟨true, successMessage 0, some 0, some items.length,
          some (saveToDatabase st items kw none false).1.products.length⟩) := by
  have h1 := save_success st items kw false hne
  have hs1 : (saveToDatabase st items kw none false).1
      = ⟨st.products ++ (items.filter fun p => !dupB st.products p).map (mkProduct kw),
         st.sessionsLog ++
          [⟨kw, items.length,
            (items.filter fun p => !dupB st.products p).length,
            if 0 < (items.filter fun p => !dupB st.products p).length then "completed"
              else "partial",
            if 0 < (items.filter fun p => dupB st.products p).length then
              some (toString (items.filter fun p => dupB st.products p).length ++
                "개 중복 상품 스킵됨")
            else none⟩]⟩ := by rw [h1]
  have hcov : ∀ p ∈ items,
      dupB (saveToDatabase st items kw none false).1.products p = true := by
    intro p hp
    have hu := hurls p hp
    rw [hs1]
    by_cases hd : dupB st.products p = true
    · simp only [dupB, Bool.and_eq_true, decide_eq_true_eq] at hd ⊢
      refine ⟨hd.1, ?_⟩
      rcases List.any_eq_true.mp hd.2 with ⟨q, hq, hqe⟩
      exact List.any_eq_true.mpr ⟨q, List.mem_append_left _ hq, hqe⟩
    · have hmem : mkProduct kw p
          ∈ (items.filter fun x => !dupB st.products x).map (mkProduct kw) :=
        List.mem_map_of_mem _ (List.mem_filter.mpr ⟨hp, by simp [hd]⟩)
      simp only [dupB, Bool.and_eq_true, decide_eq_true_eq]
      refine ⟨hu, ?_⟩
      refine List.any_eq_true.mpr ⟨mkProduct kw p, List.mem_append_right _ hmem, ?_⟩
      simp [mkProduct]
  have hfilter1 : (items.filter
      fun p => !dupB (saveToDatabase st items kw none false).1.products p) = [] := by
    rw [List.filter_eq_nil_iff]
    intro p hp
    simp [hcov p hp]
  have hfilter2 : (items.filter
      fun p => dupB (saveToDatabase st items kw none false).1.products p) = items := by
    rw [List.filter_eq_self]
    intro p hp
    exact hcov p hp
  have h2 := save_success (saveToDatabase st items kw none false).1 items kw false hne
  rw [hfilter1, hfilter2] at h2
  simp only [List.map_nil, List.length_nil, List.append_nil, Nat.lt_irrefl,
    if_false, Nat.add_zero] at h2
  rw [h2]
  have hpos : 0 < items.length := List.length_pos.mpr hne
  simp [hpos]

/-! ## Claims -/

/-- Claim C1: after a navigation that reaches a page, if the page title or
the full page markup contains any of the fixed block or error indicator
substrings (case-insensitive), scrape_search_page classifies the page as
blocked with that indicator, regardless of the item elements on the page —
in particular it never returns a success with an empty record list. -/
theorem blocked_priority (pg : PageModel) (t c ind : String)
    (hstart : pg.pageStarted = true)
    (hnav : navigatePhase pg.navAttempts pg.navFallback = none)
    (ht : pg.titleRes = .ok t) (hc : pg.contentRes = .ok c)
    (hind : findIndicator t c = some ind) :
    scrapeSearchPage pg = .ok (.err (blockReason ind)) ∧
      ∀ d, scrapeSearchPage pg ≠ .ok (.ok d) := by
  have hmain : scrapeSearchPage pg = .ok (.err (blockReason ind)) := by
    simp only [scrapeSearchPage, hstart, hnav, ht, hc, hind]
    rfl
  exact ⟨hmain, fun d hd => by rw [hmain] at hd; cases hd⟩

theorem blocked_priority_witness :
    scrapeSearchPage pageRobot = .ok (.err (blockReason "Robot Check")) :=
  (blocked_priority pageRobot "Robot Check" "<html>wireless mouse results</html>"
    "Robot Check" rfl rfl rfl rfl rfl).1

/-- Claim C6 counterexample: on a page where every in-flight navigation
attempt raises the session-closed exception, scrape_search_page catches it
and returns an ordinary failure classification; no exception reaches the
caller, contradicting the claim that session-closed errors propagate. -/
theorem session_closed_returned :
    scrapeSearchPage pageClosed = .ok (.err (interactErrReason closedBoom)) ∧
      ∀ e, scrapeSearchPage pageClosed ≠ .error e := by
  have hmain : scrapeSearchPage pageClosed
      = .ok (.err (interactErrReason closedBoom)) := rfl
  exact ⟨hmain, fun e he => by rw [hmain] at he; cases he⟩

/-- Claim C6 (amended): a session-closed exception raised during the
navigation phase is caught and converted into an ordinary failure result
(it never propagates), exactly like every other navigation failure;
an exception escapes scrape_search_page only from the unguarded page reads
performed after navigation, such as the page-title fetch, whether or not
it is session-closed. -/
theorem session_error_handling (pg : PageModel) (reason e : String) :
    (pg.pageStarted = true →
      navigatePhase pg.navAttempts pg.navFallback = some reason →
      scrapeSearchPage pg = .ok (.err reason)) ∧
    (pg.pageStarted = true →
      navigatePhase pg.navAttempts pg.navFallback = none →
      pg.titleRes = .error e →
      scrapeSearchPage pg = .error e) := by
  constructor
  · intro hstart hnav
    simp only [scrapeSearchPage, hstart, hnav]
    rfl
  · intro hstart hnav ht
    simp only [scrapeSearchPage, hstart, hnav, ht]
    rfl

theorem session_error_handling_witness :
    scrapeSearchPage pageClosed = .ok (.err (interactErrReason closedBoom)) ∧
      scrapeSearchPage pageTitleRaise = .error "boom" :=
  ⟨(session_error_handling pageClosed (interactErrReason closedBoom) "x").1
      rfl rfl,
   (session_error_handling pageTitleRaise "x" "boom").2 rfl rfl rfl⟩

/-- Claim C7: an item element yields a retained record exactly when its
name chain accepted a candidate, its price chain parsed a value that is
strictly positive, and its url resolved to a nonempty string; a record
missing any of the three, or whose first parsed price is zero or negative,
is discarded. -/
theorem retention_iff (it : ItemElem) :
    (extractRecord it).isSome ↔
      ((∃ c, nameChainOpt it.nameCands = some c) ∧
       resolveUrl it.href ≠ "" ∧
       (∃ q, priceChainOpt it.priceCands = some q ∧ 0 < q)) := by
  simp only [extractRecord]
  cases hn : nameChainOpt it.nameCands with
  | none =>
    simp [hn]
  | some c =>
    have hacc := nameChainOpt_accept hn
    have hne := acceptName_ne hacc
    cases hp : priceChainOpt it.priceCands with
    | none =>
      simp [hn, hp, hne.1, hne.2]
    | some q =>
      by_cases hq : 0 < q
      · by_cases hu : resolveUrl it.href = ""
        · simp [hn, hp, hq, hu]
        · simp [hn, hp, hq, hu, hne.1, hne.2]
      · simp [hn, hp, hq, hne.1, hne.2]

theorem retention_iff_witness : (extractRecord (itemFx 0)).isSome :=
  (retention_iff (itemFx 0)).mpr
    ⟨⟨"Wireless Mouse Variant Number 0", by decide⟩, by decide,
     ⟨10, by decide, by norm_num⟩⟩

/-- Claim C10: calling save_to_database with an empty item list returns a
failure result immediately: the store is untouched, no row is inserted and
no audit is written. -/
theorem empty_persist_noop (store : Store) (kw : String) (fault : DbFault)
    (aF : Bool) :
    saveToDatabase store [] kw fault aF
      = (store, ⟨false, "데이터 없음", none, none, none⟩) := rfl

/-- Claim C5: when a database exception hits the persist loop, every insert
of the run is rolled back (the committed rows are unchanged), a failed
audit carrying the exception message is appended best-effort (nothing when
that secondary write fails too), and the call returns a failure result
instead of re-raising. -/
theorem rollback_on_failure (store : Store) (items : List ProductData)
    (kw msg : String) (j : Nat) (aF : Bool) (hj : j < items.length) :
    (saveToDatabase store items kw (some (j, msg)) aF).1.products
        = store.products ∧
    (saveToDatabase store items kw (some (j, msg)) aF).1.sessionsLog
      = store.sessionsLog ++
          (if aF then [] else [⟨kw, items.length, 0, "failed", some msg⟩]) ∧
    (saveToDatabase store items kw (some (j, msg)) aF).2
      = ⟨false, dbFailMessage msg, none, none, none⟩ := by
  rw [save_fault store items kw msg j aF hj]
  cases aF <;> simp

theorem rollback_on_failure_witness :
    (saveToDatabase emptyStore [pdFx] "k" (some (0, "db down")) false).1.products
        = emptyStore.products ∧
    (saveToDatabase emptyStore [pdFx] "k" (some (0, "db down")) false).1.sessionsLog
      = emptyStore.sessionsLog ++
          (if false then [] else [⟨"k", [pdFx].length, 0, "failed", some "db down"⟩]) ∧
    (saveToDatabase emptyStore [pdFx] "k" (some (0, "db down")) false).2
      = ⟨false, dbFailMessage "db down", none, none, none⟩ :=
  rollback_on_failure emptyStore [pdFx] "k" "db down" 0 false (by decide)

/-- Claim C2 counterexample: a pipeline invocation whose scrape phase
classifies the page as blocked (title Robot Check) returns a failure
result and writes no audit row at all — not exactly one. -/
theorem audit_missing_on_block :
    scrapeAndSaveToDb emptyStore pageRobot "wireless mouse" 50 fetchFail none false
      = (emptyStore, .ok ⟨false, blockReason "Robot Check", none, none, none⟩) ∧
    emptyStore.sessionsLog.length = 0 := ⟨rfl, rfl⟩

/-- Claim C2 (amended): a pipeline invocation writes zero, one, or two
audit rows.  Zero when the run fails before the persist step — a scrape
exception or a scrape failure classification returns without touching the
store — and zero when a failure-audit write itself fails, which is
swallowed, never escalated.  Exactly one on a fault-free persist of a
nonempty list.  Two when the post-commit row-count read fails after a
successful commit: the committed rows and the committed success audit
stay, and a best-effort failed audit is appended after them. -/
theorem audit_bounds (store : Store) (pg : PageModel) (kw : String)
    (mx : Nat) (fetch : String → Except String DetailPage) (fault : DbFault)
    (aF : Bool) :
    ((scrapeAndSaveToDb store pg kw mx fetch fault aF).1.sessionsLog.length
        ≤ store.sessionsLog.length + 2) ∧
    (∀ e, scrapeSearchPage pg = .error e →
      scrapeAndSaveToDb store pg kw mx fetch fault aF = (store, .error e)) ∧
    (∀ m, scrapeSearchPage pg = .ok (.err m) →
      scrapeAndSaveToDb store pg kw mx fetch fault aF
        = (store, .ok ⟨false, m, none, none, none⟩)) ∧
    (∀ (st : Store) (items : List ProductData), items ≠ [] →
      (saveToDatabase st items kw none aF).1.sessionsLog.length
        = st.sessionsLog.length + 1) ∧
    (∀ (st : Store) (items : List ProductData) (msg : String), items ≠ [] →
      saveToDatabase st items kw (some (items.length + 1, msg)) aF
        = (⟨st.products ++
              (items.filter fun p => !dupB st.products p).map (mkProduct kw),
            (st.sessionsLog ++
              [⟨kw, items.length,
                (items.filter fun p => !dupB st.products p).length,
                if 0 < (items.filter fun p => !dupB st.products p).length then
                  "completed" else "partial",
                if 0 < (items.filter fun p => dupB st.products p).length then
                  some (toString
                      (items.filter fun p => dupB st.products p).length ++
                    "개 중복 상품 스킵됨")
                else none⟩]) ++
              (if aF then [] else [⟨kw, items.length, 0, "failed", some msg⟩])⟩,
           ⟨false, dbFailMessage msg, none, none, none⟩)) ∧
    (∀ (st : Store) (items : List ProductData) (j : Nat) (msg : String),
      j < items.length →
      saveToDatabase st items kw (some (j, msg)) true
        = (st, ⟨false, dbFailMessage msg, none, none, none⟩)) := by
  refine ⟨?_, ?_, ?_, ?_, ?_, ?_⟩
  · simp only [scrapeAndSaveToDb]
    cases hs : scrapeSearchPage pg with
    | error e => simp
    | ok oc =>
      cases oc with
      | err m => simp
      | ok data => exact save_log_le store _ kw fault aF
  · intro e he
    simp only [scrapeAndSaveToDb, he]
  · intro m hm
    simp only [scrapeAndSaveToDb, hm]
  · intro st items hne2
    rw [save_success st items kw aF hne2]
    simp
  · intro st items msg hne2
    exact save_count_fault st items kw msg aF hne2
  · intro st items j msg hj
    rw [save_fault st items kw msg j true hj]
    rfl

theorem audit_bounds_witness :
    (saveToDatabase emptyStore [pdFx] "k" none false).1.sessionsLog.length
        = emptyStore.sessionsLog.length + 1 ∧
    (saveToDatabase emptyStore [pdFx] "k" (some ([pdFx].length + 1, "count boom"))
        false).1.sessionsLog.length = 2 ∧
    saveToDatabase emptyStore [pdFx] "k" (some (0, "db down")) true
      = (emptyStore, ⟨false, dbFailMessage "db down", none, none, none⟩) := by
  refine ⟨?_, ?_, ?_⟩
  · exact (audit_bounds emptyStore pageRobot "k" 50 fetchFail none false).2.2.2.1
      emptyStore [pdFx] (by decide)
  · rw [(audit_bounds emptyStore pageRobot "k" 50 fetchFail none
      false).2.2.2.2.1 emptyStore [pdFx] "count boom" (by decide)]
    rfl
  · exact (audit_bounds emptyStore pageRobot "k" 50 fetchFail none
      false).2.2.2.2.2 emptyStore [pdFx] 0 "db down" (by decide)

/-- Claim C8 counterexample: a record selected for enrichment whose detail
visit fails is merged with the default detail dict, whose price key
overwrites the search-page price: the merged record carries price 0, not
the input price 25, so the input price is not preserved. -/
theorem enrich_price_overwritten :
    enrichBatch [rawFx] fetchFail = [pdFx] ∧
    pdFx.price = some 0 ∧
    rawFx.price = 25 ∧
    pdFx.price ≠ some rawFx.price := by
  refine ⟨rfl, rfl, rfl, by decide⟩

/-- Claim C8 (amended): for every record selected for detail enrichment the
merged dict keeps the input title and item url and the record always stays
in the batch (the enriched batch has exactly the prefix length, and a
failed detail visit yields the default detail dict rather than dropping
the record); the price, however, is taken from the detail dict — 0 when
detail extraction fails — not preserved from the input record. -/
theorem enrichment_frame (r : RawRecord) (res : Except String DetailPage) :
    (mergeProduct r (scrapeProductDetail r.url res)).name = some r.name ∧
    (mergeProduct r (scrapeProductDetail r.url res)).url = some r.url ∧
    (mergeProduct r (scrapeProductDetail r.url res)).price
      = some (scrapeProductDetail r.url res).price ∧
    (∀ e, res = .error e →
      scrapeProductDetail r.url res
        = ⟨"ERROR", "N/A", "N/A", false, 0, 0, 0, r.url⟩) ∧
    (∀ (data : List RawRecord) (fetchF : String → Except String DetailPage),
      (enrichBatch data fetchF).length = min 5 data.length) := by
  refine ⟨rfl, ?_, rfl, ?_, ?_⟩
  · simp only [mergeProduct, scrapeProductDetail_url]
  · intro e he
    subst he
    rfl
  · intro data fetchF
    simp [enrichBatch]

theorem enrichment_frame_witness :
    (mergeProduct rawFx (scrapeProductDetail rawFx.url (.error "x"))).name
        = some rawFx.name ∧
    scrapeProductDetail rawFx.url (.error "x")
      = ⟨"ERROR", "N/A", "N/A", false, 0, 0, 0, rawFx.url⟩ :=
  ⟨(enrichment_frame rawFx (.error "x")).1,
   (enrichment_frame rawFx (.error "x")).2.2.2.1 "x" rfl⟩

/-- Claim C4 counterexample: a run that extracts 12 valid records with
max_products 12 persists only the 5 enriched prefix records: the result
reports 5 added, the store holds 5 rows, and the sixth extracted record
(url ...C4PROD5) is nowhere in the store — the remaining 7 records are
dropped, not persisted with defaults. -/
theorem enrichment_cap_violation :
    (scrapeAndSaveToDb emptyStore page12 "wireless mouse" 12 fetchFail none false).2
      = .ok ⟨true, successMessage 5, some 5, some 0, some 5⟩ ∧
    (scrapeAndSaveToDb emptyStore page12 "wireless mouse" 12 fetchFail
        none false).1.products.length = 5 ∧
    ∀ q ∈ (scrapeAndSaveToDb emptyStore page12 "wireless mouse" 12 fetchFail
        none false).1.products,
      q.product_url ≠ "https://www.amazon.com/dp/C4PROD5" := by
  refine ⟨rfl, rfl, by decide⟩

/-- Claim C4 (amended): when extraction yields n records and max_items is
at least n, exactly min(n,5) records — the DOM-order prefix — are enriched
and exactly those are handed to persistence; the remaining n - min(n,5)
records are discarded, so the store grows by at most min(n,5) rows. -/
theorem enrichment_cap (store : Store) (pg : PageModel) (kw : String)
    (mx : Nat) (fetch : String → Except String DetailPage) (fault : DbFault)
    (aF : Bool) (d : List RawRecord)
    (hscrape : scrapeSearchPage pg = .ok (.ok d)) (hlen : d.length ≤ mx) :
    scrapeAndSaveToDb store pg kw mx fetch fault aF
      = ((saveToDatabase store (enrichBatch d fetch) kw fault aF).1,
         .ok (saveToDatabase store (enrichBatch d fetch) kw fault aF).2) ∧
    (enrichBatch d fetch).length = min 5 d.length ∧
    (scrapeAndSaveToDb store pg kw mx fetch fault aF).1.products.length
      ≤ store.products.length + min 5 d.length := by
  have htake : d.take mx = d := List.take_of_length_le hlen
  have h1 : scrapeAndSaveToDb store pg kw mx fetch fault aF
      = ((saveToDatabase store (enrichBatch d fetch) kw fault aF).1,
         .ok (saveToDatabase store (enrichBatch d fetch) kw fault aF).2) := by
    simp only [scrapeAndSaveToDb, hscrape, htake]
  have h2 : (enrichBatch d fetch).length = min 5 d.length := by
    simp [enrichBatch]
  refine ⟨h1, h2, ?_⟩
  rw [h1]
  have h3 := save_products_le store (enrichBatch d fetch) kw fault aF
  rw [h2] at h3
  exact h3

theorem enrichment_cap_witness :
    (scrapeAndSaveToDb emptyStore page12 "k" 20 fetchFail none false).1.products.length
      ≤ emptyStore.products.length + min 5 12 :=
  (enrichment_cap emptyStore page12 "k" 20 fetchFail none false
    ((List.range 12).map itemFx |>.filterMap extractRecord) rfl (by decide)).2.2

/-- Claim C3: the fault-free persist step skips exactly the items whose
canonical url already has a committed row (counting them as skipped,
leaving the store unchanged for them) and inserts the rest (first
conjunct); consequently running the pipeline twice against an unchanged
page yields products_added = 0 on the second run, with products_skipped
equal to the number of items handled — and recorded as found in that
run's audit — by the second run (second conjunct). -/
theorem acquire_idempotent (store : Store) (pg : PageModel) (kw : String)
    (mx : Nat) (fetch : String → Except String DetailPage)
    (d : List RawRecord)
    (hscrape : scrapeSearchPage pg = .ok (.ok d)) (hne : d ≠ [])
    (hmx : 0 < mx) :
    (∀ (st : Store) (items : List ProductData) (aF : Bool), items ≠ [] →
      saveToDatabase st items kw none aF =
        (⟨st.products ++
            (items.filter fun p => !dupB st.products p).map (mkProduct kw),
          st.sessionsLog ++
            [⟨kw, items.length,
              (items.filter fun p => !dupB st.products p).length,
              if 0 < (items.filter fun p => !dupB st.products p).length then
                "completed" else "partial",
              if 0 < (items.filter fun p => dupB st.products p).length then
                some (toString (items.filter fun p => dupB st.products p).length ++
                  "개 중복 상품 스킵됨")
              else none⟩]⟩,
         ⟨true,
          successMessage (items.filter fun p => !dupB st.products p).length,
          some (items.filter fun p => !dupB st.products p).length,
          some (items.filter fun p => dupB st.products p).length,
          some (st.products.length +
            (items.filter fun p => !dupB st.products p).length)⟩)) ∧
    (let out1 := scrapeAndSaveToDb store pg kw mx fetch none false
     scrapeAndSaveToDb out1.1 pg kw mx fetch none false
       = (⟨out1.1.products,
           out1.1.sessionsLog ++
             [⟨kw, min 5 (min mx d.length), 0, "partial",
               some (toString (min 5 (min mx d.length)) ++ "개 중복 상품 스킵됨")⟩]⟩,
          .ok ⟨true, successMessage 0, some 0, some (min 5 (min mx d.length)),
            some out1.1.products.length⟩)) := by
  constructor
  · intro st items aF hne2
    exact save_success st items kw aF hne2
  · have hurls : ∀ p ∈ enrichBatch (d.take mx) fetch, p.url.getD "" ≠ "" := by
      intro p hp
      rcases enrichBatch_url p hp with ⟨r, hr, hpr⟩
      have hru : r.url ≠ "" :=
        scrapeSearchPage_ok_urls hscrape r (List.mem_of_mem_take hr)
      rw [hpr]
      simpa using hru
    have hbne : enrichBatch (d.take mx) fetch ≠ [] := by
      simp only [enrichBatch, ne_eq, List.map_eq_nil_iff, List.take_eq_nil_iff]
      push_neg
      refine ⟨by omega, by simp [List.take_eq_nil_iff]; push_neg; exact ⟨by omega, hne⟩⟩
    have hblen : (enrichBatch (d.take mx) fetch).length = min 5 (min mx d.length) := by
      simp [enrichBatch]
    have hrun : ∀ s0 : Store, scrapeAndSaveToDb s0 pg kw mx fetch none false
        = ((saveToDatabase s0 (enrichBatch (d.take mx) fetch) kw none false).1,
           .ok (saveToDatabase s0 (enrichBatch (d.take mx) fetch) kw none false).2) := by
      intro s0
      simp only [scrapeAndSaveToDb, hscrape]
    show scrapeAndSaveToDb (scrapeAndSaveToDb store pg kw mx fetch none false).1
        pg kw mx fetch none false = _
    rw [hrun store, hrun, save_twice store (enrichBatch (d.take mx) fetch) kw hbne hurls,
      hblen]

theorem acquire_idempotent_witness :
    scrapeAndSaveToDb (scrapeAndSaveToDb emptyStore page3 "k" 10 fetchFail
        none false).1 page3 "k" 10 fetchFail none false
      = (⟨(scrapeAndSaveToDb emptyStore page3 "k" 10 fetchFail none false).1.products,
          (scrapeAndSaveToDb emptyStore page3 "k" 10 fetchFail
              none false).1.sessionsLog ++
            [⟨"k", min 5 (min 10 d3.length), 0, "partial",
              some (toString (min 5 (min 10 d3.length)) ++ "개 중복 상품 스킵됨")⟩]⟩,
         .ok ⟨true, successMessage 0, some 0, some (min 5 (min 10 d3.length)),
           some (scrapeAndSaveToDb emptyStore page3 "k" 10 fetchFail
             none false).1.products.length⟩) :=
  (acquire_idempotent emptyStore page3 "k" 10 fetchFail d3 rfl (by decide)
    (by decide)).2

end MarketInsights
